import Mathlib

/-!
Verification of the `defer` scope-exit utility (`include/defer/defer.hpp`).

The header provides:
* `defer::detail::DeferTaskType = std::function<void()>` — the deferred task;
* `defer::detail::Defer` — a RAII guard storing one task (`m_task`), whose
  constructor only move-stores the task and whose `noexcept` destructor runs
  `try { m_task(); } catch (...) {}`;
* `defer::detail::DeferTaskTag` and `operator|(DeferTaskTag, DeferTaskType)`,
  returning `Defer(std::move(task))`;
* the `defer` macro, expanding to
  `const auto __defer_newbie_<LINE> = DeferTaskTag{} | [&]() mutable -> void <block>;`
  where `<LINE>` is the decimal spelling of `__LINE__`.

The shallow embedding below models tasks as state transformers that may also
raise an error, the guard as a structure holding its task, and the C++ scope /
unwinding discipline as an executable semantics of a small statement language
in which `deferDecl` declares a guard and block exit (through any path) runs
the destructors of the block's guards in reverse declaration order.
-/

namespace DeferSpec

/-- Errors a task invocation can raise: an arbitrary user error thrown by the
task body, or `std::bad_function_call` raised by invoking an empty
`std::function`. -/
inductive Err where
  | userError (code : Nat)
  | badFunctionCall
deriving DecidableEq, Repr

/-- A deferred task body over ambient state `σ` (the by-reference captured
environment): it mutates the state and possibly raises an error.  The returned
state includes mutations made before the raise, matching by-reference capture
in C++. -/
def TaskFun (σ : Type) : Type := σ → σ × Option Err

/-- `defer::detail::DeferTaskType = std::function<void()>`: a `std::function`
is either empty (`none`, invocation raises `bad_function_call`) or wraps a
callable. -/
def DeferTaskType (σ : Type) : Type := Option (TaskFun σ)

/-- Invocation `m_task()` of a `std::function<void()>`: an empty function
raises `std::bad_function_call`; otherwise the wrapped callable runs. -/
def DeferTaskType.call {σ : Type} : DeferTaskType σ → σ → σ × Option Err
  | none, s => (s, some Err.badFunctionCall)
  | some f, s => f s

/-- `defer::detail::Defer`: the RAII guard.  The constructor
`Defer(DeferTaskType task) : m_task(std::move(task)) {}` is `Defer.mk`:
it only stores the task. -/
structure Defer (σ : Type) where
  m_task : DeferTaskType σ

/-- The destructor `~Defer() noexcept { try { m_task(); } catch (...) {} }`:
the task is invoked once; any error it raises is caught and discarded, so the
error component propagated out of destruction is always `none`. -/
def Defer.destructor {σ : Type} (d : Defer σ) (s : σ) : σ × Option Err :=
  ((d.m_task.call s).1, none)

/-- `defer::detail::DeferTaskTag`: an empty tag type used only for the
`operator|` syntax. -/
structure DeferTaskTag where

/-- `Defer operator|(DeferTaskTag, DeferTaskType task) { return
Defer(std::move(task)); }`. -/
def DeferTaskTag.pipe {σ : Type} (_ : DeferTaskTag) (task : DeferTaskType σ) :
    Defer σ :=
  Defer.mk task

/-- How control leaves a statement: normal fall-through, early `return`, or a
propagating exception. -/
inductive ExitKind where
  | normal
  | ret
  | exc (e : Err)
deriving DecidableEq, Repr

/-- Statements of the embedded fragment of C++ used at `defer` call sites:
pure mutation, declaration of a `Defer` guard (the expansion of the `defer`
macro), sequencing, a nested `{ ... }` block, early `return`, and `throw`. -/
inductive Stmt (σ : Type) where
  | skip
  | assign (f : σ → σ)
  | deferDecl (task : DeferTaskType σ)
  | seq (a b : Stmt σ)
  | block (body : Stmt σ)
  | ret
  | throwStmt (e : Err)

/-- Run the destructors of the guards of a finished block.  The list holds the
most recently declared guard first, so running head-first is exactly C++'s
reverse-declaration-order destruction; each destructor suppresses task errors,
so destruction itself never alters the exit path. -/
def runDtors {σ : Type} : List (Defer σ) → σ → σ
  | [], s => s
  | g :: rest, s => runDtors rest (g.destructor s).1

/-- Executable semantics.  `exec st s gs` runs statement `st` in state `s`
with `gs` the guards already declared in the current block (most recent
first); it returns the final state, the updated guard list, and how control
left the statement.  A `block` destroys its own guards on every exit path
before propagating the exit kind, which is C++ stack unwinding. -/
def exec {σ : Type} : Stmt σ → σ → List (Defer σ) → σ × List (Defer σ) × ExitKind
  | Stmt.skip, s, gs => (s, gs, ExitKind.normal)
  | Stmt.assign f, s, gs => (f s, gs, ExitKind.normal)
  | Stmt.deferDecl task, s, gs =>
      (s, DeferTaskTag.pipe DeferTaskTag.mk task :: gs, ExitKind.normal)
  | Stmt.seq a b, s, gs =>
      match exec a s gs with
      | (s', gs', ExitKind.normal) => exec b s' gs'
      | (s', gs', ek) => (s', gs', ek)
  | Stmt.block body, s, gs =>
      match exec body s [] with
      | (s', innerGs, ek) => (runDtors innerGs s', gs, ek)
  | Stmt.ret, s, gs => (s, gs, ExitKind.ret)
  | Stmt.throwStmt e, s, gs => (s, gs, ExitKind.exc e)

/-- Run a statement as a full scope: the body is wrapped in its enclosing
block, so every guard it declares is destroyed by the time control leaves. -/
def runScope {σ : Type} (body : Stmt σ) (s : σ) : σ × ExitKind :=
  ((exec (Stmt.block body) s []).1, (exec (Stmt.block body) s []).2.2)

/-- Instrument a task with an invocation counter: the counter component is
incremented exactly when the task body runs. -/
def countInvocations {σ : Type} (t : TaskFun σ) : TaskFun (σ × Nat) :=
  fun p => (((t p.1).1, p.2 + 1), (t p.1).2)

/-- Lift a pure state mutation to the counter-instrumented state. -/
def liftCount {σ : Type} (f : σ → σ) : σ × Nat → σ × Nat :=
  fun p => (f p.1, p.2)

/-- Destructor-running for by-value-snapshot guards: the task runs on the
state copied at registration time and its result is discarded, so neither
intervening mutations nor the task's own mutations are exchanged with the
surrounding scope. -/
def runDtorsSnapshot {σ : Type} : List (DeferTaskType σ × σ) → σ → σ
  | [], s => s
  | _ :: rest, s => runDtorsSnapshot rest s

/-- Modelled from the spec's contrast case only (C7 compares the code against
it): alternative semantics in which the deferred block captures a value-copy
snapshot of the environment at registration time instead of aliasing it. -/
def execSnapshot {σ : Type} :
    Stmt σ → σ → List (DeferTaskType σ × σ) → σ × List (DeferTaskType σ × σ) × ExitKind
  | Stmt.skip, s, gs => (s, gs, ExitKind.normal)
  | Stmt.assign f, s, gs => (f s, gs, ExitKind.normal)
  | Stmt.deferDecl task, s, gs => (s, (task, s) :: gs, ExitKind.normal)
  | Stmt.seq a b, s, gs =>
      match execSnapshot a s gs with
      | (s', gs', ExitKind.normal) => execSnapshot b s' gs'
      | (s', gs', ek) => (s', gs', ek)
  | Stmt.block body, s, gs =>
      match execSnapshot body s [] with
      | (s', innerGs, ek) => (runDtorsSnapshot innerGs s', gs, ek)
  | Stmt.ret, s, gs => (s, gs, ExitKind.ret)
  | Stmt.throwStmt e, s, gs => (s, gs, ExitKind.exc e)

/-- Scope-level run of the by-value-snapshot semantics. -/
def runScopeSnapshot {σ : Type} (body : Stmt σ) (s : σ) : σ × ExitKind :=
  ((execSnapshot (Stmt.block body) s []).1,
    (execSnapshot (Stmt.block body) s []).2.2)

/-- The token pasting `a ## b` performed by `__DEFER_CONCAT__` and its helper
macros. -/
def deferConcat (a b : String) : String := a ++ b

/-- The decimal spelling the preprocessor substitutes for `__LINE__`: the
base-10 digits of the line number, most significant first, rendered as digit
characters (`Nat.digits` is little-endian, hence the reverse). -/
def lineSpelling (line : Nat) : String :=
  String.mk (((Nat.digits 10 line).reverse).map Nat.digitChar)

/-- `__DEFER_NEWBIE__`, i.e. `__DEFER_CONCAT__(__defer_newbie_, __LINE__)`:
the variable name the `defer` macro binds its guard to. -/
def deferNewbieName (line : Nat) : String :=
  deferConcat "__defer_newbie_" (lineSpelling line)

/-- A textual use of the `defer` marker: the source line and column at which
the marker appears.  The generated guard name depends only on the line. -/
structure UseSite where
  line : Nat
  col : Nat
deriving DecidableEq, Repr

/-- The guard variable name the macro generates at a use site. -/
def guardNameAt (u : UseSite) : String :=
  deferNewbieName u.line

/-- Two uses of the marker in one scope collide when the macro binds both
guards to the same variable name (a C++ redefinition error). -/
def collide (u v : UseSite) : Prop :=
  guardNameAt u = guardNameAt v

/-- The special-member situation of a C++ class declaration (no bases): which
special members are user-declared or explicitly deleted, and whether all
non-static data members are copyable. -/
structure SpecialMembers where
  userCopyCtor : Bool
  userCopyAssign : Bool
  userMoveCtor : Bool
  userMoveAssign : Bool
  userDtor : Bool
  copyCtorDeleted : Bool
  copyAssignDeleted : Bool
  membersCopyable : Bool
deriving DecidableEq, Repr

/-- The declarations of `class Defer`: a user-declared converting constructor
and a user-declared destructor, nothing else — no copy or move operation is
declared or deleted, and the single member `DeferTaskType m_task`
(a `std::function`) is copyable. -/
def deferClassDecl : SpecialMembers :=
  { userCopyCtor := false
    userCopyAssign := false
    userMoveCtor := false
    userMoveAssign := false
    userDtor := true
    copyCtorDeleted := false
    copyAssignDeleted := false
    membersCopyable := true }

/-- C++ rule: the copy constructor is available iff it is not explicitly
deleted and every member is copyable — when not user-declared it is
implicitly defaulted; a user-declared destructor makes that implicit
definition deprecated, not deleted. -/
def copyCtorAvailable (c : SpecialMembers) : Bool :=
  !c.copyCtorDeleted && c.membersCopyable

/-- C++ rule: likewise for the copy assignment operator. -/
def copyAssignAvailable (c : SpecialMembers) : Bool :=
  !c.copyAssignDeleted && c.membersCopyable

/-- C++ rule: a move constructor is implicitly declared only when the class
user-declares no copy operation, no move operation and no destructor. -/
def moveCtorImplicit (c : SpecialMembers) : Bool :=
  !c.userCopyCtor && !c.userCopyAssign && !c.userMoveCtor &&
    !c.userMoveAssign && !c.userDtor

/-- The implicitly-defaulted copy constructor of `Defer`: memberwise copy, so
the new guard holds (a copy of) the same task. -/
def Defer.copyCtor {σ : Type} (d : Defer σ) : Defer σ :=
  Defer.mk d.m_task

end DeferSpec

namespace DeferSpec

/-- C1: constructing a guard with task `t` inside a scope (with arbitrary code
`f` before and `g` after the declaration) and letting the scope end invokes
`t` exactly once, at destruction time: the final state is one application of
`t`, applied after all of the body (`t (g (f s))`, never earlier), and on the
counter-instrumented state the invocation counter rises by exactly one. -/
theorem c1_task_invoked_exactly_once_at_destruction {σ : Type} (t : TaskFun σ)
    (f g : σ → σ) (s : σ) (k : Nat) :
    runScope (Stmt.seq (Stmt.assign f)
      (Stmt.seq (Stmt.deferDecl (some t)) (Stmt.assign g))) s
      = ((t (g (f s))).1, ExitKind.normal) ∧
    (runScope (Stmt.seq (Stmt.assign (liftCount f))
      (Stmt.seq (Stmt.deferDecl (some (countInvocations t)))
        (Stmt.assign (liftCount g)))) (s, k)).1.2 = k + 1 := by
  constructor <;>
    simp [runScope, exec, runDtors, Defer.destructor, DeferTaskType.call,
      DeferTaskTag.pipe, countInvocations, liftCount]

/-- C2: if the task raises an error when invoked, destruction of the owning
guard still completes normally: the destructor returns the task's mutated
state with no propagated error (`none`), and a scope owning such a guard is
left with exit kind `normal`. -/
theorem c2_task_error_caught_and_discarded {σ : Type} (f : TaskFun σ) (s : σ)
    (e : Err) (h : (f s).2 = some e) :
    (Defer.mk (some f)).destructor s = ((f s).1, none) ∧
    runScope (Stmt.deferDecl (some f)) s = ((f s).1, ExitKind.normal) := by
  constructor <;>
    simp [runScope, exec, runDtors, Defer.destructor, DeferTaskType.call,
      DeferTaskTag.pipe]

/-- C2 witness: a concrete task that increments a counter and then raises,
whose owning guard's destruction completes with no propagated error. -/
theorem c2_witness :
    ((fun n : Nat => (n + 1, some (Err.userError 3))) 0).2
        = some (Err.userError 3) ∧
    (Defer.mk (some (fun n : Nat => (n + 1, some (Err.userError 3))))).destructor 0
        = (1, none) := by
  refine ⟨rfl, ?_⟩
  exact (c2_task_error_caught_and_discarded
    (fun n : Nat => (n + 1, some (Err.userError 3))) 0 (Err.userError 3) rfl).1

/-- C3: two guards declared in the same scope (tasks `t` then `u`, with
arbitrary code `f`, `g`, `h` around them) are invoked in strictly reverse
declaration order: the body runs `f`, `g`, `h`, then the last-declared task
`u` runs first and the first-declared task `t` runs last. -/
theorem c3_same_scope_guards_run_in_reverse_order {σ : Type}
    (t u : TaskFun σ) (f g h : σ → σ) (s : σ) :
    runScope (Stmt.seq (Stmt.assign f)
      (Stmt.seq (Stmt.deferDecl (some t))
        (Stmt.seq (Stmt.assign g)
          (Stmt.seq (Stmt.deferDecl (some u)) (Stmt.assign h))))) s
      = ((t (u (h (g (f s)))).1).1, ExitKind.normal) := by
  simp [runScope, exec, runDtors, Defer.destructor, DeferTaskType.call,
    DeferTaskTag.pipe]

/-- C4: once a guard is constructed its task is invoked on every exit path:
normal fall-through, early `return`, and a propagating exception all leave the
scope with the task applied exactly once, only the exit kind differing. -/
theorem c4_task_invoked_on_every_exit_path {σ : Type} (t : TaskFun σ)
    (e : Err) (s : σ) :
    runScope (Stmt.seq (Stmt.deferDecl (some t)) Stmt.skip) s
        = ((t s).1, ExitKind.normal) ∧
    runScope (Stmt.seq (Stmt.deferDecl (some t)) Stmt.ret) s
        = ((t s).1, ExitKind.ret) ∧
    runScope (Stmt.seq (Stmt.deferDecl (some t)) (Stmt.throwStmt e)) s
        = ((t s).1, ExitKind.exc e) := by
  refine ⟨?_, ?_, ?_⟩ <;>
    simp [runScope, exec, runDtors, Defer.destructor, DeferTaskType.call,
      DeferTaskTag.pipe]

/-- C7: the deferred block aliases the enclosing environment rather than
snapshotting it: a mutation `f` made between registration and scope exit is
seen by the task (`t` receives `f s`, not `s`), the task's own mutations are
the final state of the scope, and on a concrete program the code's aliasing
semantics differs from the by-value-snapshot semantics modelled from the
spec's contrast case. -/
theorem c7_capture_by_reference_not_snapshot {σ : Type} (t : TaskFun σ)
    (f : σ → σ) (s : σ) :
    runScope (Stmt.seq (Stmt.deferDecl (some t)) (Stmt.assign f)) s
        = ((t (f s)).1, ExitKind.normal) ∧
    runScopeSnapshot
        (Stmt.seq
          (Stmt.deferDecl (some (fun n : Nat => (n * 10, none))))
          (Stmt.assign (fun n : Nat => n + 1))) 0
      ≠ runScope
        (Stmt.seq
          (Stmt.deferDecl (some (fun n : Nat => (n * 10, none))))
          (Stmt.assign (fun n : Nat => n + 1))) 0 := by
  constructor
  · simp [runScope, exec, runDtors, Defer.destructor, DeferTaskType.call,
      DeferTaskTag.pipe]
  · decide

/-- C8: constructing a guard only transfers the task into it: the `Defer`
constructor stores exactly the given task, `operator|` just forwards to that
constructor, and executing the guard declaration leaves the program state
unchanged — no side effect and no invocation. -/
theorem c8_construction_stores_task_without_invoking {σ : Type}
    (t : DeferTaskType σ) (s : σ) (gs : List (Defer σ)) :
    (Defer.mk t).m_task = t ∧
    DeferTaskTag.pipe DeferTaskTag.mk t = Defer.mk t ∧
    exec (Stmt.deferDecl t) s gs = (s, Defer.mk t :: gs, ExitKind.normal) := by
  refine ⟨rfl, rfl, ?_⟩
  simp [exec, DeferTaskTag.pipe]

/-- C9: a guard declared in a nested block (task `ti`) fires at the end of
that block — before the enclosing scope's remaining code `g` and strictly
before the enclosing scope's guard (task `to`) fires. -/
theorem c9_nested_block_guard_fires_first {σ : Type} (tIn tOut : TaskFun σ)
    (g : σ → σ) (s : σ) :
    runScope (Stmt.seq (Stmt.deferDecl (some tOut))
      (Stmt.seq (Stmt.block (Stmt.deferDecl (some tIn))) (Stmt.assign g))) s
      = ((tOut (g (tIn s).1)).1, ExitKind.normal) := by
  simp [runScope, exec, runDtors, Defer.destructor, DeferTaskType.call,
    DeferTaskTag.pipe]

/-- C10: a guard holding an empty `std::function`: invoking the empty task
raises `bad_function_call`, and the guard's destructor catches it like any
task error — destruction completes with the state unchanged and no error
propagated. -/
theorem c10_empty_function_error_suppressed {σ : Type} (s : σ) :
    DeferTaskType.call (none : DeferTaskType σ) s
        = (s, some Err.badFunctionCall) ∧
    (Defer.mk (none : DeferTaskType σ)).destructor s = (s, none) ∧
    runScope (Stmt.deferDecl (none : DeferTaskType σ)) s
        = (s, ExitKind.normal) := by
  refine ⟨rfl, rfl, ?_⟩
  simp [runScope, exec, runDtors, Defer.destructor, DeferTaskType.call,
    DeferTaskTag.pipe]

/-- `Nat.digitChar` is injective on digits below ten. -/
theorem digitChar_inj_below_ten :
    ∀ a, a < 10 → ∀ b, b < 10 → Nat.digitChar a = Nat.digitChar b → a = b := by
  decide

/-- Mapping `Nat.digitChar` over lists of digits below ten is injective. -/
theorem map_digitChar_inj :
    ∀ (l1 l2 : List Nat), (∀ d ∈ l1, d < 10) → (∀ d ∈ l2, d < 10) →
      l1.map Nat.digitChar = l2.map Nat.digitChar → l1 = l2
  | [], [], _, _, _ => rfl
  | [], _ :: _, _, _, h => by simp at h
  | _ :: _, [], _, _, h => by simp at h
  | a :: l1, b :: l2, h1, h2, h => by
      simp only [List.map_cons, List.cons.injEq] at h
      have ha := h1 a (List.mem_cons_self a l1)
      have hb := h2 b (List.mem_cons_self b l2)
      have hab := digitChar_inj_below_ten a ha b hb h.1
      subst hab
      have htl := map_digitChar_inj l1 l2
        (fun d hd => h1 d (List.mem_cons_of_mem a hd))
        (fun d hd => h2 d (List.mem_cons_of_mem a hd)) h.2
      rw [htl]

/-- Distinct line numbers have distinct decimal spellings. -/
theorem lineSpelling_injective : Function.Injective lineSpelling := by
  intro n m h
  simp only [lineSpelling] at h
  injection h with h
  have h2 := map_digitChar_inj _ _
    (fun d hd => Nat.digits_lt_base (by norm_num) (List.mem_reverse.mp hd))
    (fun d hd => Nat.digits_lt_base (by norm_num) (List.mem_reverse.mp hd)) h
  exact Nat.digits_inj_iff.mp (List.reverse_injective h2)

/-- The macro's generated guard name determines the line number. -/
theorem deferNewbieName_injective : Function.Injective deferNewbieName := by
  intro n m h
  apply lineSpelling_injective
  have hd : (deferNewbieName n).data = (deferNewbieName m).data := by rw [h]
  simp only [deferNewbieName, deferConcat, String.data_append] at hd
  exact String.ext (List.append_cancel_left hd)

/-- C5 counterexample: two distinct uses of the `defer` marker on the same
source line (line 7, columns 1 and 40 of one scope) generate the same guard
variable name, so the second declaration collides with the first — the claim
that the notation never produces a name collision fails. -/
theorem c5_counterexample_same_line_collides :
    UseSite.mk 7 1 ≠ UseSite.mk 7 40 ∧
    collide (UseSite.mk 7 1) (UseSite.mk 7 40) := by
  exact ⟨by decide, rfl⟩

/-- C5 amended: uses of the `defer` marker on distinct source lines of the
same scope never collide — the generated name embeds the line number
injectively, each use binds its own independently lived guard, and both
guards fire in reverse declaration order. -/
theorem c5_amended_distinct_lines_no_collision {σ : Type} (u v : UseSite)
    (h : u.line ≠ v.line) (t1 t2 : TaskFun σ) (s : σ) :
    ¬ collide u v ∧
    runScope (Stmt.seq (Stmt.deferDecl (some t1)) (Stmt.deferDecl (some t2))) s
      = ((t1 (t2 s).1).1, ExitKind.normal) := by
  constructor
  · intro hc
    exact h (deferNewbieName_injective hc)
  · simp [runScope, exec, runDtors, Defer.destructor, DeferTaskType.call,
      DeferTaskTag.pipe]

/-- C5 amended witness: the marker used at lines 10 and 11 of one scope, with
two concrete tasks over a counter state. -/
theorem c5_amended_witness :
    UseSite.line (UseSite.mk 10 1) ≠ UseSite.line (UseSite.mk 11 1) ∧
    (¬ collide (UseSite.mk 10 1) (UseSite.mk 11 1) ∧
      runScope (Stmt.seq
        (Stmt.deferDecl (some (fun n : Nat => (n + 1, none))))
        (Stmt.deferDecl (some (fun n : Nat => (n * 2, none))))) 0
        = (1, ExitKind.normal)) := by
  refine ⟨by decide, ?_⟩
  have h := c5_amended_distinct_lines_no_collision (UseSite.mk 10 1)
    (UseSite.mk 11 1) (by decide)
    (fun n : Nat => (n + 1, none)) (fun n : Nat => (n * 2, none)) 0
  simpa using h

/-- C6 counterexample: `Defer` declares only a constructor and a destructor,
so per the C++ special-member rules its copy constructor and copy assignment
are implicitly available (deprecated, not deleted) — the guard does support
copying — and copying a guard duplicates its task: destroying a guard holding
an increment task and then destroying a copy of it increments the counter
twice, violating exclusive one-guard ownership. -/
theorem c6_counterexample_guard_is_copyable :
    copyCtorAvailable deferClassDecl = true ∧
    copyAssignAvailable deferClassDecl = true ∧
    ((Defer.mk (some (fun n : Nat => (n + 1, none)))).copyCtor.destructor
      ((Defer.mk (some (fun n : Nat => (n + 1, none)))).destructor 0).1).1
      = 2 := by
  exact ⟨rfl, rfl, rfl⟩

/-- C6 amended: the guard type does not delete its copy operations — since
only a constructor and destructor are user-declared, C++ implicitly provides
copy construction and copy assignment and declares no move constructor — so
the type itself does not enforce exclusive ownership; construction transfers
exactly the given task into the guard with no invocation, `operator|` only
forwards to the constructor, and each guard the macro declares is a fresh
anonymous local owning its own task, never copied or reassigned by the
macro's expansion. -/
theorem c6_amended_copy_implicit_macro_path_exclusive {σ : Type}
    (t : DeferTaskType σ) (s : σ) (gs : List (Defer σ)) :
    copyCtorAvailable deferClassDecl = true ∧
    copyAssignAvailable deferClassDecl = true ∧
    moveCtorImplicit deferClassDecl = false ∧
    (Defer.mk t).m_task = t ∧
    DeferTaskTag.pipe DeferTaskTag.mk t = Defer.mk t ∧
    exec (Stmt.deferDecl t) s gs
      = (s, Defer.mk t :: gs, ExitKind.normal) := by
  refine ⟨rfl, rfl, rfl, rfl, rfl, ?_⟩
  simp [exec, DeferTaskTag.pipe]

end DeferSpec
